import Mathlib

/-!
Shallow embedding of the multi-round tool-calling orchestration loop of
`backend/ai_generator.py`, and of the search tool of `backend/search_tools.py`.

External collaborators (the Anthropic client and the tool manager) are modelled
as oracles: the LLM client is a function from the index of the call attempt
(the number of `messages.create` attempts made so far in this query) to either
a response or a raised exception (`Except.error msg` models `raise`), and the
tool manager is a function from tool name and argument map to either a result
string or a raised exception.  Every `messages.create` attempt is recorded in
an `ApiCall` trace entry so that theorems can speak about how many calls were
made and with which system prompt.
-/

/-- `listLead pat s` is true when `pat` is a leading segment of `s`. -/
def listLead : List Char → List Char → Bool
  | [], _ => true
  | _ :: _, [] => false
  | a :: as, b :: bs => a == b && listLead as bs

/-- `occursIn pat s` is true when `pat` occurs contiguously inside `s`;
this is Python's `pat in s` on strings, on the character-list model. -/
def occursIn (pat : List Char) : List Char → Bool
  | [] => listLead pat []
  | c :: rest => listLead pat (c :: rest) || occursIn pat rest

/-- Python's substring test `pat in s`. -/
def containsSub (s pat : String) : Bool :=
  occursIn pat.toList s.toList

/-- Python's `str.lower()` (the strings involved are ASCII). -/
def lowerStr (s : String) : String :=
  String.mk (s.toList.map Char.toLower)

/-- One content block of an LLM response.  `text` is `none` on blocks that have
no `text` attribute (accessing `.text` on such a block raises in Python). -/
structure ContentBlock where
  type : String
  text : Option String := none
  name : String := ""
  input : List (String × String) := []
  id : String := ""
deriving DecidableEq, Repr

/-- An LLM response: `stop_reason` plus the content block list. -/
structure Response where
  stop_reason : String
  content : List ContentBlock
deriving DecidableEq, Repr

/-- One entry of a round's tool-result batch (a `tool_result` dict). -/
structure ToolResultBlock where
  tool_use_id : String
  content : String
deriving DecidableEq, Repr

/-- The content of one transcript message. -/
inductive MsgContent where
  | str : String → MsgContent
  | blocks : List ContentBlock → MsgContent
  | toolResults : List ToolResultBlock → MsgContent
deriving DecidableEq, Repr

/-- One role-tagged transcript message. -/
structure Message where
  role : String
  content : MsgContent
deriving DecidableEq, Repr

/-- Trace record of one `messages.create` attempt: the system prompt, whether
tool schemas were attached, round bookkeeping for round-opening calls
(round number, round budget, accumulated context at call time), and the
synthesized user prompt for synthesis calls. -/
structure ApiCall where
  system : String
  hasTools : Bool
  roundInfo : Option (Nat × Nat × List String) := none
  userPrompt : Option String := none
deriving DecidableEq, Repr

/-- The LLM client oracle: call-attempt index to outcome; `Except.error e`
models the call raising an exception with message `e`. -/
def Client := Nat → Except String Response

/-- The tool-manager oracle: `execute_tool(name, **input)`; `Except.error e`
models the tool raising an exception with message `e`. -/
def ToolManagerFn := String → List (String × String) → Except String String

/-- `ConversationState` of `ai_generator.py`. -/
structure ConversationState where
  original_query : String
  messages : List Message
  round_count : Nat := 0
  max_rounds : Nat := 2
  system_prompt : String := ""
  accumulated_context : List String := []
deriving DecidableEq, Repr

/-- `ConversationState.can_continue`. -/
def ConversationState.can_continue (st : ConversationState) : Bool :=
  st.round_count < st.max_rounds

/-- `ConversationState.add_tool_context`: `if context and context not in
self.accumulated_context: self.accumulated_context.append(context)`. -/
def ConversationState.add_tool_context (st : ConversationState) (context : String) :
    ConversationState :=
  if context ≠ "" ∧ context ∉ st.accumulated_context then
    { st with accumulated_context := st.accumulated_context ++ [context] }
  else st

/-- Python `response.content[0].text`: `none` models the attribute or index
access raising. -/
def content0text (r : Response) : Option String :=
  match r.content with
  | [] => none
  | b :: _ => b.text

/-- `AIGenerator.SYSTEM_PROMPT` (the static base system prompt). -/
def SYSTEM_PROMPT : String :=
  " You are an AI assistant specialized in course materials and educational content with access to comprehensive search and outline tools for course information.\n\nTool Usage Guidelines:\n- **Content Search**: Use the search tool for questions about specific course content or detailed educational materials\n- **Course Outline**: Use the outline tool for questions about course structure, lesson lists, or course overview\n- **Sequential Tool Usage**: You can use tools multiple times (up to 2 rounds) to gather comprehensive information for complex queries\n- **Multi-step Reasoning**: For complex questions, use initial tool results to inform follow-up tool searches\n- Synthesize tool results into accurate, fact-based responses\n- If tools yield no results, state this clearly without offering alternatives\n\nSequential Tool Usage Examples:\n- \"Find a course that covers the same topic as lesson 4 of course X\" → First get outline of course X to find lesson 4 title → Then search for courses covering that topic\n- Comparing content across multiple courses → Search each course separately then synthesize\n- Multi-part questions requiring different types of information\n\nResponse Protocol:\n- **General knowledge questions**: Answer using existing knowledge without using tools\n- **Course content questions**: Use search tool(s) as needed, then answer\n- **Course outline/structure questions**: Use outline tool(s) as needed, then answer\n- **Complex queries**: Break down into multiple tool uses if beneficial\n- **No meta-commentary**:\n - Provide direct answers only — no reasoning process, tool explanations, or question-type analysis\n - Do not mention \"based on the search results\" or \"based on the outline\"\n\nFor outline-related queries, always return:\n- Course title\n- Course link\n- Complete lesson list with lesson numbers and titles\n\nAll responses must be:\n1. **Brief, Concise and focused** - Get to the point quickly\n2. **Educational** - Maintain instructional value\n3. **Clear** - Use accessible language\n4. **Example-supported** - Include relevant examples when they aid understanding\nProvide only the direct answer to what was asked.\n"

/-- The fixed phrase list of `_response_suggests_continuation`. -/
def continuation_indicators : List String :=
  ["let me search for more", "i need to find", "let me look up", "i should check",
   "additional information", "more details needed", "need to search for more",
   "search for more specific"]

/-- `AIGenerator._response_suggests_continuation`. -/
def response_suggests_continuation (response : String) : Bool :=
  continuation_indicators.any (fun indicator => containsSub (lowerStr response) indicator)

/-- The per-round system prompt of `_execute_conversation_rounds` lines 137-147:
base prompt, unless `round_count > 1` and the accumulated context is non-empty,
in which case the base prompt is augmented with the context summary and the
round statement. -/
def build_round_prompt (base : String) (round_count max_rounds : Nat)
    (ctx : List String) : String :=
  if round_count > 1 ∧ ctx ≠ [] then
    base ++ "\n\nPrevious tool results from this query:\n" ++ String.intercalate "\n" ctx
      ++ "\n\nThis is round " ++ toString round_count ++ " of " ++ toString max_rounds ++ ". "
      ++ (if round_count = max_rounds then "This is your final round of tool usage."
          else "You may use tools again if needed for follow-up searches.")
  else base

/-- The system prompt of the synthesis call (`_synthesize_final_response`). -/
def SYNTHESIS_SYSTEM : String :=
  "You are an AI assistant. Synthesize the provided information to answer the user's question comprehensively and accurately. Provide only the direct answer without mentioning the synthesis process."

/-- The user prompt built by `_synthesize_final_response`. -/
def synthesisPrompt (st : ConversationState) : String :=
  "Based on the information I gathered:\n\n"
    ++ String.intercalate "\n\n" st.accumulated_context
    ++ "\n\nPlease provide a comprehensive answer to: " ++ st.original_query

/-- The trace entry of the synthesis call. -/
def synthEntry (st : ConversationState) : ApiCall :=
  { system := SYNTHESIS_SYSTEM, hasTools := false, userPrompt := some (synthesisPrompt st) }

/-- `AIGenerator._synthesize_final_response`: fixed apology when no context was
accumulated; otherwise one non-tool LLM call over the synthesis prompt, falling
back to the concatenated context on failure. -/
def synthesize_final_response (client : Client) (st : ConversationState)
    (log : List ApiCall) : String × List ApiCall :=
  if st.accumulated_context = [] then
    ("I apologize, but I wasn't able to gather the information needed to answer your question.",
     log)
  else
    let log1 := log ++ [synthEntry st]
    match client log.length with
    | .ok resp =>
      match content0text resp with
      | some t => (t, log1)
      | none =>
        ("Based on my search, here's what I found:\n\n"
           ++ String.intercalate "\n\n" st.accumulated_context, log1)
    | .error _ =>
      ("Based on my search, here's what I found:\n\n"
         ++ String.intercalate "\n\n" st.accumulated_context, log1)

/-- The per-block loop of `_handle_tool_execution_for_round` lines 217-245:
each `tool_use` block is executed individually; a successful result is added to
the accumulated context as `"<name>: <result>"` and to the batch; a raised
exception becomes a `"Tool execution failed: <message>"` batch entry only. -/
def processToolBlocks (tm : ToolManagerFn) :
    List ContentBlock → ConversationState → List ToolResultBlock →
    ConversationState × List ToolResultBlock
  | [], st, acc => (st, acc)
  | b :: rest, st, acc =>
    if b.type = "tool_use" then
      match tm b.name b.input with
      | .ok tool_result =>
        processToolBlocks tm rest
          (st.add_tool_context (b.name ++ ": " ++ tool_result))
          (acc ++ [{ tool_use_id := b.id, content := tool_result }])
      | .error e =>
        processToolBlocks tm rest st
          (acc ++ [{ tool_use_id := b.id, content := "Tool execution failed: " ++ e }])
    else processToolBlocks tm rest st acc

/-- The state after tool execution and the two transcript appends of
`_handle_tool_execution_for_round` lines 247-252. -/
def stateAfterTools (tm : ToolManagerFn) (initial_response : Response)
    (st : ConversationState) : ConversationState :=
  let p := processToolBlocks tm initial_response.content st []
  let st2 := { p.1 with
    messages := p.1.messages ++ [{ role := "assistant", content := MsgContent.blocks initial_response.content }] }
  if p.2 ≠ [] then
    { st2 with messages := st2.messages ++ [{ role := "user", content := MsgContent.toolResults p.2 }] }
  else st2

/-- The trace entry of a round's follow-up call (no tools attached). -/
def followEntry (system : String) : ApiCall :=
  { system := system, hasTools := false }

/-- `AIGenerator._handle_tool_execution_for_round`: execute the round's tool
calls, append the tool-use turn and the batch to the transcript, then make one
follow-up call without tools; on follow-up failure, synthesize if any context
exists, otherwise re-raise. -/
def handle_tool_execution_for_round (client : Client) (tm : ToolManagerFn)
    (initial_response : Response) (st : ConversationState) (system : String)
    (log : List ApiCall) : Except String String × ConversationState × List ApiCall :=
  let st3 := stateAfterTools tm initial_response st
  let log1 := log ++ [followEntry system]
  match client log.length with
  | .ok resp =>
    match content0text resp with
    | some t => (.ok t, st3, log1)
    | none =>
      if st3.accumulated_context ≠ [] then
        let sl := synthesize_final_response client st3 log1
        (.ok sl.1, st3, sl.2)
      else (.error "AttributeError: text", st3, log1)
  | .error e =>
    if st3.accumulated_context ≠ [] then
      let sl := synthesize_final_response client st3 log1
      (.ok sl.1, st3, sl.2)
    else (.error e, st3, log1)

/-- `state.round_count += 1` at the top of each round. -/
def bumpRound (st : ConversationState) : ConversationState :=
  { st with round_count := st.round_count + 1 }

/-- This round's system prompt, from the current state. -/
def roundPrompt (st : ConversationState) : String :=
  build_round_prompt st.system_prompt st.round_count st.max_rounds st.accumulated_context

/-- The trace entry of a round-opening call (tools attached when `tools`). -/
def roundEntry (st1 : ConversationState) (tools : Bool) : ApiCall :=
  { system := roundPrompt st1, hasTools := tools,
    roundInfo := some (st1.round_count, st1.max_rounds, st1.accumulated_context) }

/-- Python `response.content[0].text` outside any `try`: the text when the
first block has one, otherwise a propagating exception. -/
def directReturn (response : Response) (log1 : List ApiCall) :
    Except String String × List ApiCall :=
  match content0text response with
  | some t => (.ok t, log1)
  | none => (.error "AttributeError: text", log1)

/-- `return self._synthesize_final_response(state)` (synthesis never raises). -/
def synthReturn (client : Client) (st : ConversationState) (log : List ApiCall) :
    Except String String × List ApiCall :=
  (.ok (synthesize_final_response client st log).1,
   (synthesize_final_response client st log).2)

/-- Lines 172-190 of `_execute_conversation_rounds`: the branch taken when the
round's response requested tool use and a tool manager is present.  `recur`
is the continuation into the next loop iteration. -/
def toolRoundBranch (client : Client) (tmgr : ToolManagerFn)
    (recur : ConversationState → List ApiCall → Except String String × List ApiCall)
    (response : Response) (st1 : ConversationState) (log1 : List ApiCall) :
    Except String String × List ApiCall :=
  match handle_tool_execution_for_round client tmgr response st1 (roundPrompt st1) log1 with
  | (.error e, _, log2) => (.error e, log2)
  | (.ok follow_up, st2, log2) =>
    if response_suggests_continuation follow_up then
      if st2.can_continue then
        recur { st2 with messages := st2.messages
                  ++ [{ role := "assistant", content := MsgContent.str follow_up }] }
          log2
      else synthReturn client st2 log2
    else (.ok follow_up, log2)

/-- One iteration of the round loop after the `round_count` increment: make the
round's LLM call (tools attached when available); on a raise, synthesize if any
context exists, else propagate; on tool use with a manager, take the tool
branch; otherwise return the response text. -/
def roundBody (client : Client) (tools : Bool) (tm : Option ToolManagerFn)
    (recur : ConversationState → List ApiCall → Except String String × List ApiCall)
    (st1 : ConversationState) (log : List ApiCall) :
    Except String String × List ApiCall :=
  match client log.length with
  | .error e =>
    if st1.accumulated_context ≠ [] then
      synthReturn client st1 (log ++ [roundEntry st1 tools])
    else (.error e, log ++ [roundEntry st1 tools])
  | .ok response =>
    match tm with
    | some tmgr =>
      if response.stop_reason = "tool_use" then
        toolRoundBranch client tmgr recur response st1 (log ++ [roundEntry st1 tools])
      else directReturn response (log ++ [roundEntry st1 tools])
    | none => directReturn response (log ++ [roundEntry st1 tools])

/-- The `while state.can_continue()` loop of `_execute_conversation_rounds`,
written with a structural fuel.  The guard `st.can_continue` alone decides
whether a round runs; the fuel only bounds the recursion depth and, at the
canonical value `st.max_rounds - st.round_count` used by
`execute_conversation_rounds`, never runs out while the guard still holds
(each iteration increments `round_count` by exactly one and leaves
`max_rounds` unchanged), so the fuel-0 case coincides with the loop's normal
exit into synthesis. -/
def roundsLoop (client : Client) (tools : Bool) (tm : Option ToolManagerFn) :
    Nat → ConversationState → List ApiCall → Except String String × List ApiCall
  | 0, st, log => synthReturn client st log
  | fuel + 1, st, log =>
    if st.can_continue then
      roundBody client tools tm
        (fun st2 log2 => roundsLoop client tools tm fuel st2 log2)
        (bumpRound st) log
    else synthReturn client st log

/-- `AIGenerator._execute_conversation_rounds`. -/
def execute_conversation_rounds (client : Client) (tools : Bool)
    (tm : Option ToolManagerFn) (st : ConversationState) (log : List ApiCall) :
    Except String String × List ApiCall :=
  roundsLoop client tools tm (st.max_rounds - st.round_count) st log

/-- Python truthiness of an optional string. -/
def pyTruthyStr : Option String → Bool
  | none => false
  | some s => s ≠ ""

/-- `AIGenerator.generate_response`: build the initial state (round budget 2)
and run the round loop. -/
def generate_response (client : Client) (query : String)
    (conversation_history : Option String) (tools : Bool)
    (tm : Option ToolManagerFn) : Except String String × List ApiCall :=
  let initial_system_content :=
    if pyTruthyStr conversation_history then
      SYSTEM_PROMPT ++ "\n\nPrevious conversation:\n" ++ conversation_history.getD ""
    else SYSTEM_PROMPT
  execute_conversation_rounds client tools tm
    { original_query := query,
      messages := [{ role := "user", content := MsgContent.str query }],
      round_count := 0, max_rounds := 2,
      system_prompt := initial_system_content,
      accumulated_context := [] } []

/-- Chunk metadata as used by `CourseSearchTool._format_results`:
`meta.get("course_title", "unknown")` and `meta.get("lesson_number")`. -/
structure ChunkMeta where
  course_title : Option String := none
  lesson_number : Option Int := none
deriving DecidableEq, Repr

/-- Search results returned by the vector-store collaborator.
Modelled from the spec: `vector_store.SearchResults` is not under src/; §6
describes `search(query, course_name?, lesson_number?) → {documents[],
metadata[]} | error`. -/
structure SearchResults where
  documents : List String
  metadata : List ChunkMeta
  error : Option String := none
deriving DecidableEq, Repr

/-- Modelled from the spec: `SearchResults.is_empty` is defined in the missing
`vector_store.py`; per §6 results are a document/metadata list, so an empty
result set is an empty document list. -/
def SearchResults.is_empty (r : SearchResults) : Bool :=
  r.documents.isEmpty

/-- The vector store's unified search interface, as an oracle. -/
def SearchFn := String → Option String → Option Int → SearchResults

/-- The vector store's lesson-link lookup, as an oracle. -/
def LessonLinkFn := String → Int → Option String

/-- Python truthiness of an optional int (`0` and `None` are falsy). -/
def pyTruthyInt : Option Int → Bool
  | none => false
  | some n => n ≠ 0

/-- `CourseSearchTool._format_results`: formatted text plus the source labels
and source links recorded for the UI side channel. -/
def format_results (getLessonLink : LessonLinkFn) (results : SearchResults) :
    String × List String × List (Option String) :=
  let step := fun (acc : List String × List String × List (Option String))
      (dm : String × ChunkMeta) =>
    let course_title := dm.2.course_title.getD "unknown"
    let lessonTag :=
      match dm.2.lesson_number with
      | some n => " - Lesson " ++ toString n
      | none => ""
    let header := "[" ++ course_title ++ lessonTag ++ "]"
    let source := course_title ++ lessonTag
    let lesson_link :=
      match dm.2.lesson_number with
      | some n => getLessonLink course_title n
      | none => none
    (acc.1 ++ [header ++ "\n" ++ dm.1], acc.2.1 ++ [source], acc.2.2 ++ [lesson_link])
  let z := (results.documents.zip results.metadata).foldl step ([], [], [])
  (String.intercalate "\n\n" z.1, z.2.1, z.2.2)

/-- `CourseSearchTool.execute`: delegate to the store's search; return a
delegate-reported error verbatim; on an empty result set build the no-match
message whose filter suffixes follow Python truthiness of the supplied
filters; otherwise format the results. -/
def CourseSearchTool_execute (search : SearchFn) (getLessonLink : LessonLinkFn)
    (query : String) (course_name : Option String) (lesson_number : Option Int) :
    String :=
  let results := search query course_name lesson_number
  if pyTruthyStr results.error then results.error.getD ""
  else if results.is_empty then
    let filter_info :=
      (if pyTruthyStr course_name then
         " in course '" ++ course_name.getD "" ++ "'" else "")
      ++ (if pyTruthyInt lesson_number then
            " in lesson " ++ toString (lesson_number.getD 0) else "")
    "No relevant content found" ++ filter_info ++ "."
  else (format_results getLessonLink results).1

/-- Number of tools-enabled call attempts in a trace. -/
def countToolCalls (log : List ApiCall) : Nat :=
  (log.filter (fun e => e.hasTools)).length

/-- Shape of any trace entry the round loop itself appends: either a non-round
call (follow-up or synthesis), or a round-opening call whose system prompt was
built by `build_round_prompt` from the query's base prompt and the recorded
round bookkeeping. -/
def RoundCallShape (base : String) (tools : Bool) (e : ApiCall) : Prop :=
  e.roundInfo = none ∨
    (e.hasTools = tools ∧ ∃ k m ctx, e.roundInfo = some (k, m, ctx) ∧
      e.system = build_round_prompt base k m ctx)

/-- The text a tool-use block contributes to the round's batch: the tool's
result on success, the wrapped error message when the tool raises. -/
def toolOutcomeText (tm : ToolManagerFn) (b : ContentBlock) : String :=
  match tm b.name b.input with
  | .ok r => r
  | .error e => "Tool execution failed: " ++ e

/-- The accumulated context after a round's tool processing: successful calls
append their `"<name>: <result>"` line (deduplicated, Python-truthy); raising
calls leave the context untouched. -/
def ctxAfterBlocks (tm : ToolManagerFn) (bs : List ContentBlock)
    (ctx : List String) : List String :=
  bs.foldl (fun c b =>
    if b.type = "tool_use" then
      match tm b.name b.input with
      | .ok r =>
        if (b.name ++ ": " ++ r) ≠ "" ∧ (b.name ++ ": " ++ r) ∉ c then
          c ++ [b.name ++ ": " ++ r]
        else c
      | .error _ => c
    else c) ctx

/-- A tool manager whose every call raises with message "boom". -/
def tmRaise : ToolManagerFn := fun _ _ => .error "boom"

/-- A tool manager whose every call succeeds with "result1". -/
def tmOk : ToolManagerFn := fun _ _ => .ok "result1"

/-- A single tool-use content block. -/
def toolUseBlock : ContentBlock :=
  { type := "tool_use", name := "search_course_content", input := [], id := "t1" }

/-- A plain text content block. -/
def textBlock (s : String) : ContentBlock := { type := "text", text := some s }

/-- A response requesting one tool call. -/
def respToolUse : Response := { stop_reason := "tool_use", content := [toolUseBlock] }

/-- A direct-answer response. -/
def respText (s : String) : Response := { stop_reason := "end_turn", content := [textBlock s] }

/-- A conversation state at the start of a query with base prompt "BASE". -/
def stBase : ConversationState :=
  { original_query := "q",
    messages := [{ role := "user", content := MsgContent.str "q" }],
    round_count := 0, max_rounds := 2, system_prompt := "BASE",
    accumulated_context := [] }

/-- Client for the C2 counterexample run: round 1 requests a tool (which will
raise), the follow-up says a continuation phrase, and round 2 answers. -/
def clientC2 : Client := fun n =>
  if n = 0 then .ok respToolUse
  else if n = 1 then .ok (respText "i need to find more")
  else .ok (respText "done")

/-- Client whose every call returns the direct answer "done". -/
def clientDone : Client := fun _ => .ok (respText "done")

/-- A conversation state holding one accumulated tool result. -/
def stCtx : ConversationState :=
  { stBase with accumulated_context := ["search_course_content: result1"] }

/-- Client whose every call raises with "net down". -/
def clientErr : Client := fun _ => .error "net down"

/-- A tool-use response whose first content block is a text block. -/
def respToolUseText : Response :=
  { stop_reason := "tool_use", content := [textBlock "checking", toolUseBlock] }

/-- State one round before the budget limit. -/
def stR1 : ConversationState := { stBase with round_count := 1 }

/-- Client for the C3 witness: the final round requests a tool, the follow-up
says a continuation phrase, and the synthesis call answers "synthesized". -/
def clientC3 : Client := fun n =>
  if n = 0 then .ok respToolUse
  else if n = 1 then .ok (respText "i need to find more")
  else .ok (respText "synthesized")

/-- Client for the C4 counterexample: round 1 requests a tool, the follow-up
call raises, the in-handler synthesis answers with a continuation phrase, and
round 2 answers "FINAL". -/
def clientC4 : Client := fun n =>
  if n = 0 then .ok respToolUse
  else if n = 1 then .error "net down"
  else if n = 2 then .ok (respText "i need to find more")
  else .ok (respText "FINAL")

/-- Delegate that reports no error and an empty result set. -/
def searchEmpty : SearchFn :=
  fun _ _ _ => { documents := [], metadata := [], error := none }

/-- Lesson-link oracle with no links. -/
def noLinks : LessonLinkFn := fun _ _ => none

theorem add_tool_context_round_count (st : ConversationState) (c : String) :
    (st.add_tool_context c).round_count = st.round_count := by
  unfold ConversationState.add_tool_context; split <;> rfl

theorem add_tool_context_max_rounds (st : ConversationState) (c : String) :
    (st.add_tool_context c).max_rounds = st.max_rounds := by
  unfold ConversationState.add_tool_context; split <;> rfl

theorem add_tool_context_system_prompt (st : ConversationState) (c : String) :
    (st.add_tool_context c).system_prompt = st.system_prompt := by
  unfold ConversationState.add_tool_context; split <;> rfl

theorem add_tool_context_messages (st : ConversationState) (c : String) :
    (st.add_tool_context c).messages = st.messages := by
  unfold ConversationState.add_tool_context; split <;> rfl

theorem add_tool_context_ctx (st : ConversationState) (c : String) :
    (st.add_tool_context c).accumulated_context =
      if c ≠ "" ∧ c ∉ st.accumulated_context then st.accumulated_context ++ [c]
      else st.accumulated_context := by
  unfold ConversationState.add_tool_context; split <;> rfl

theorem processToolBlocks_round_count (tm : ToolManagerFn) :
    ∀ (bs : List ContentBlock) (st : ConversationState) (acc : List ToolResultBlock),
      (processToolBlocks tm bs st acc).1.round_count = st.round_count := by
  intro bs
  induction bs with
  | nil => intro st acc; rfl
  | cons b rest ih =>
    intro st acc
    by_cases hb : b.type = "tool_use"
    · rw [processToolBlocks, if_pos hb]
      cases htm : tm b.name b.input with
      | ok r => rw [ih, add_tool_context_round_count]
      | error e => rw [ih]
    · rw [processToolBlocks, if_neg hb]; exact ih st acc

theorem processToolBlocks_max_rounds (tm : ToolManagerFn) :
    ∀ (bs : List ContentBlock) (st : ConversationState) (acc : List ToolResultBlock),
      (processToolBlocks tm bs st acc).1.max_rounds = st.max_rounds := by
  intro bs
  induction bs with
  | nil => intro st acc; rfl
  | cons b rest ih =>
    intro st acc
    by_cases hb : b.type = "tool_use"
    · rw [processToolBlocks, if_pos hb]
      cases htm : tm b.name b.input with
      | ok r => rw [ih, add_tool_context_max_rounds]
      | error e => rw [ih]
    · rw [processToolBlocks, if_neg hb]; exact ih st acc

theorem processToolBlocks_system_prompt (tm : ToolManagerFn) :
    ∀ (bs : List ContentBlock) (st : ConversationState) (acc : List ToolResultBlock),
      (processToolBlocks tm bs st acc).1.system_prompt = st.system_prompt := by
  intro bs
  induction bs with
  | nil => intro st acc; rfl
  | cons b rest ih =>
    intro st acc
    by_cases hb : b.type = "tool_use"
    · rw [processToolBlocks, if_pos hb]
      cases htm : tm b.name b.input with
      | ok r => rw [ih, add_tool_context_system_prompt]
      | error e => rw [ih]
    · rw [processToolBlocks, if_neg hb]; exact ih st acc

theorem stateAfterTools_round_count (tm : ToolManagerFn) (r : Response)
    (st : ConversationState) :
    (stateAfterTools tm r st).round_count = st.round_count := by
  unfold stateAfterTools
  by_cases h : (processToolBlocks tm r.content st []).2 ≠ [] <;>
    simp [h, processToolBlocks_round_count]

theorem stateAfterTools_max_rounds (tm : ToolManagerFn) (r : Response)
    (st : ConversationState) :
    (stateAfterTools tm r st).max_rounds = st.max_rounds := by
  unfold stateAfterTools
  by_cases h : (processToolBlocks tm r.content st []).2 ≠ [] <;>
    simp [h, processToolBlocks_max_rounds]

theorem stateAfterTools_system_prompt (tm : ToolManagerFn) (r : Response)
    (st : ConversationState) :
    (stateAfterTools tm r st).system_prompt = st.system_prompt := by
  unfold stateAfterTools
  by_cases h : (processToolBlocks tm r.content st []).2 ≠ [] <;>
    simp [h, processToolBlocks_system_prompt]

theorem stateAfterTools_ctx (tm : ToolManagerFn) (r : Response)
    (st : ConversationState) :
    (stateAfterTools tm r st).accumulated_context =
      (processToolBlocks tm r.content st []).1.accumulated_context := by
  unfold stateAfterTools
  by_cases h : (processToolBlocks tm r.content st []).2 ≠ [] <;> simp [h]

theorem handle_state (client : Client) (tm : ToolManagerFn) (r : Response)
    (st : ConversationState) (sys : String) (log : List ApiCall) :
    (handle_tool_execution_for_round client tm r st sys log).2.1 =
      stateAfterTools tm r st := by
  unfold handle_tool_execution_for_round
  cases client log.length with
  | ok resp =>
    cases h : content0text resp with
    | some t => simp [h]
    | none =>
      simp only [h]
      by_cases hc : (stateAfterTools tm r st).accumulated_context ≠ [] <;> simp [hc]
  | error e =>
    by_cases hc : (stateAfterTools tm r st).accumulated_context ≠ [] <;> simp [hc]

theorem handle_round_count (client : Client) (tm : ToolManagerFn) (r : Response)
    (st : ConversationState) (sys : String) (log : List ApiCall) :
    (handle_tool_execution_for_round client tm r st sys log).2.1.round_count =
      st.round_count := by
  rw [handle_state, stateAfterTools_round_count]

theorem handle_max_rounds (client : Client) (tm : ToolManagerFn) (r : Response)
    (st : ConversationState) (sys : String) (log : List ApiCall) :
    (handle_tool_execution_for_round client tm r st sys log).2.1.max_rounds =
      st.max_rounds := by
  rw [handle_state, stateAfterTools_max_rounds]

theorem handle_system_prompt (client : Client) (tm : ToolManagerFn) (r : Response)
    (st : ConversationState) (sys : String) (log : List ApiCall) :
    (handle_tool_execution_for_round client tm r st sys log).2.1.system_prompt =
      st.system_prompt := by
  rw [handle_state, stateAfterTools_system_prompt]

theorem synthesize_log_cases (client : Client) (st : ConversationState)
    (log : List ApiCall) :
    (synthesize_final_response client st log).2 = log ∨
      (synthesize_final_response client st log).2 = log ++ [synthEntry st] := by
  unfold synthesize_final_response
  by_cases h : st.accumulated_context = []
  · left; simp [h]
  · right
    simp only [h, if_false]
    cases client log.length with
    | ok resp => cases hc : content0text resp with
      | some t => simp [hc]
      | none => simp [hc]
    | error e => simp

theorem countToolCalls_append (l₁ l₂ : List ApiCall) :
    countToolCalls (l₁ ++ l₂) = countToolCalls l₁ + countToolCalls l₂ := by
  simp [countToolCalls, List.filter_append]

theorem countToolCalls_synthEntry (st : ConversationState) :
    countToolCalls [synthEntry st] = 0 := rfl

theorem countToolCalls_followEntry (sys : String) :
    countToolCalls [followEntry sys] = 0 := rfl

theorem countToolCalls_roundEntry (st : ConversationState) (tools : Bool) :
    countToolCalls [roundEntry st tools] ≤ 1 := by
  cases tools <;> simp [countToolCalls, roundEntry, List.filter]

theorem countToolCalls_synthesize (client : Client) (st : ConversationState)
    (log : List ApiCall) :
    countToolCalls (synthesize_final_response client st log).2 = countToolCalls log := by
  rcases synthesize_log_cases client st log with h | h <;> rw [h]
  rw [countToolCalls_append, countToolCalls_synthEntry]
  omega

theorem handle_log_cases (client : Client) (tm : ToolManagerFn) (r : Response)
    (st : ConversationState) (sys : String) (log : List ApiCall) :
    (handle_tool_execution_for_round client tm r st sys log).2.2 =
        log ++ [followEntry sys] ∨
      (handle_tool_execution_for_round client tm r st sys log).2.2 =
        (synthesize_final_response client (stateAfterTools tm r st)
          (log ++ [followEntry sys])).2 := by
  unfold handle_tool_execution_for_round
  cases hcl : client log.length with
  | ok resp =>
    cases h : content0text resp with
    | some t => left; simp [h]
    | none =>
      simp only [h]
      by_cases hc : (stateAfterTools tm r st).accumulated_context ≠ []
      · right; simp [hc]
      · left; simp [hc]
  | error e =>
    by_cases hc : (stateAfterTools tm r st).accumulated_context ≠ []
    · right; simp [hc]
    · left; simp [hc]

theorem countToolCalls_handle (client : Client) (tm : ToolManagerFn) (r : Response)
    (st : ConversationState) (sys : String) (log : List ApiCall) :
    countToolCalls (handle_tool_execution_for_round client tm r st sys log).2.2 =
      countToolCalls log := by
  have hf : countToolCalls (log ++ [followEntry sys]) = countToolCalls log := by
    rw [countToolCalls_append, countToolCalls_followEntry]
    omega
  rcases handle_log_cases client tm r st sys log with h | h <;> rw [h]
  · exact hf
  · rw [countToolCalls_synthesize]; exact hf

theorem mem_followup_log (sys : String) (log : List ApiCall) (e : ApiCall)
    (he : e ∈ log ++ [followEntry sys]) : e ∈ log ∨ e.roundInfo = none := by
  rcases List.mem_append.mp he with h1 | h1
  · exact Or.inl h1
  · right; rw [List.mem_singleton.mp h1]; rfl

theorem mem_synthesize_log (client : Client) (st : ConversationState)
    (log : List ApiCall) (e : ApiCall)
    (he : e ∈ (synthesize_final_response client st log).2) :
    e ∈ log ∨ e.roundInfo = none := by
  rcases synthesize_log_cases client st log with h | h <;> rw [h] at he
  · exact Or.inl he
  · rcases List.mem_append.mp he with h1 | h1
    · exact Or.inl h1
    · right; rw [List.mem_singleton.mp h1]; rfl

theorem mem_handle_log (client : Client) (tm : ToolManagerFn) (r : Response)
    (st : ConversationState) (sys : String) (log : List ApiCall) (e : ApiCall)
    (he : e ∈ (handle_tool_execution_for_round client tm r st sys log).2.2) :
    e ∈ log ∨ e.roundInfo = none := by
  rcases handle_log_cases client tm r st sys log with h | h <;> rw [h] at he
  · exact mem_followup_log sys log e he
  · rcases mem_synthesize_log _ _ _ _ he with h1 | h1
    · exact mem_followup_log sys log e h1
    · exact Or.inr h1

theorem mem_round_log (st1 : ConversationState) (tools : Bool)
    (log : List ApiCall) (e : ApiCall) (he : e ∈ log ++ [roundEntry st1 tools]) :
    e ∈ log ∨ e = roundEntry st1 tools := by
  rcases List.mem_append.mp he with h1 | h1
  · exact Or.inl h1
  · exact Or.inr (List.mem_singleton.mp h1)

theorem countToolCalls_round_log (st1 : ConversationState) (tools : Bool)
    (log : List ApiCall) :
    countToolCalls (log ++ [roundEntry st1 tools]) ≤ countToolCalls log + 1 := by
  rw [countToolCalls_append]
  have := countToolCalls_roundEntry st1 tools
  omega

theorem countToolCalls_synthReturn (client : Client) (st : ConversationState)
    (log : List ApiCall) :
    countToolCalls (synthReturn client st log).2 = countToolCalls log :=
  countToolCalls_synthesize client st log

theorem countToolCalls_directReturn (response : Response) (log1 : List ApiCall) :
    countToolCalls (directReturn response log1).2 = countToolCalls log1 := by
  unfold directReturn
  cases content0text response <;> rfl

theorem toolRoundBranch_count (client : Client) (tmgr : ToolManagerFn)
    (recur : ConversationState → List ApiCall → Except String String × List ApiCall)
    (response : Response) (st1 : ConversationState) (log1 : List ApiCall) (k : Nat)
    (hrec : ∀ st2 log2, countToolCalls (recur st2 log2).2 ≤ countToolCalls log2 + k) :
    countToolCalls (toolRoundBranch client tmgr recur response st1 log1).2 ≤
      countToolCalls log1 + k := by
  have hh := countToolCalls_handle client tmgr response st1 (roundPrompt st1) log1
  unfold toolRoundBranch
  rcases hhh : handle_tool_execution_for_round client tmgr response st1
      (roundPrompt st1) log1 with ⟨fout, st2, log2⟩
  rw [hhh] at hh
  dsimp only at hh
  cases fout with
  | error e =>
    dsimp only
    omega
  | ok follow_up =>
    dsimp only
    by_cases hheu : response_suggests_continuation follow_up = true
    · rw [if_pos hheu]
      by_cases hcc2 : st2.can_continue = true
      · rw [if_pos hcc2]
        have := hrec { st2 with messages := st2.messages
          ++ [{ role := "assistant", content := MsgContent.str follow_up }] } log2
        omega
      · rw [if_neg hcc2]
        rw [countToolCalls_synthReturn]
        omega
    · rw [if_neg hheu]
      dsimp only
      omega

theorem roundBody_count (client : Client) (tools : Bool) (tm : Option ToolManagerFn)
    (recur : ConversationState → List ApiCall → Except String String × List ApiCall)
    (st1 : ConversationState) (log : List ApiCall) (k : Nat)
    (hrec : ∀ st2 log2, countToolCalls (recur st2 log2).2 ≤ countToolCalls log2 + k) :
    countToolCalls (roundBody client tools tm recur st1 log).2 ≤
      countToolCalls log + 1 + k := by
  have hlog1 := countToolCalls_round_log st1 tools log
  unfold roundBody
  cases client log.length with
  | error e =>
    dsimp only
    by_cases hctx : st1.accumulated_context ≠ []
    · rw [if_pos hctx, countToolCalls_synthReturn]
      omega
    · rw [if_neg hctx]
      dsimp only
      omega
  | ok response =>
    dsimp only
    cases tm with
    | none =>
      dsimp only
      rw [countToolCalls_directReturn]
      omega
    | some tmgr =>
      dsimp only
      by_cases hsr : response.stop_reason = "tool_use"
      · rw [if_pos hsr]
        have := toolRoundBranch_count client tmgr recur response st1
          (log ++ [roundEntry st1 tools]) k hrec
        omega
      · rw [if_neg hsr]
        rw [countToolCalls_directReturn]
        omega

theorem roundsLoop_count_bound (client : Client) (tools : Bool)
    (tm : Option ToolManagerFn) :
    ∀ (fuel : Nat) (st : ConversationState) (log : List ApiCall),
      countToolCalls (roundsLoop client tools tm fuel st log).2 ≤
        countToolCalls log + fuel := by
  intro fuel
  induction fuel with
  | zero =>
    intro st log
    rw [roundsLoop, countToolCalls_synthReturn]
    omega
  | succ fuel ih =>
    intro st log
    rw [roundsLoop]
    by_cases hcc : st.can_continue = true
    · rw [if_pos hcc]
      have := roundBody_count client tools tm
        (fun st2 log2 => roundsLoop client tools tm fuel st2 log2)
        (bumpRound st) log fuel (fun st2 log2 => ih st2 log2)
      omega
    · rw [if_neg hcc, countToolCalls_synthReturn]
      omega

theorem roundEntry_shape (st1 : ConversationState) (tools : Bool) (base : String)
    (hbase : st1.system_prompt = base) :
    RoundCallShape base tools (roundEntry st1 tools) := by
  right
  refine ⟨rfl, st1.round_count, st1.max_rounds, st1.accumulated_context, rfl, ?_⟩
  show roundPrompt st1 = build_round_prompt base st1.round_count st1.max_rounds
    st1.accumulated_context
  rw [roundPrompt, hbase]

theorem mem_round_log_shape (st1 : ConversationState) (tools : Bool)
    (log : List ApiCall) (base : String) (hbase : st1.system_prompt = base)
    (e : ApiCall) (he : e ∈ log ++ [roundEntry st1 tools]) :
    e ∈ log ∨ RoundCallShape base tools e := by
  rcases mem_round_log st1 tools log e he with h | h
  · exact Or.inl h
  · right; rw [h]; exact roundEntry_shape st1 tools base hbase

theorem toolRoundBranch_entries (client : Client) (tmgr : ToolManagerFn)
    (recur : ConversationState → List ApiCall → Except String String × List ApiCall)
    (response : Response) (st1 : ConversationState) (log1 : List ApiCall)
    (base : String) (tools : Bool) (hbase : st1.system_prompt = base)
    (hrec : ∀ st2 log2 x, st2.system_prompt = base →
        x ∈ (recur st2 log2).2 → x ∈ log2 ∨ RoundCallShape base tools x) :
    ∀ e, e ∈ (toolRoundBranch client tmgr recur response st1 log1).2 →
      e ∈ log1 ∨ RoundCallShape base tools e := by
  intro e he
  have hst2 := handle_system_prompt client tmgr response st1 (roundPrompt st1) log1
  have hmem := mem_handle_log client tmgr response st1 (roundPrompt st1) log1
  unfold toolRoundBranch at he
  rcases hhh : handle_tool_execution_for_round client tmgr response st1
      (roundPrompt st1) log1 with ⟨fout, st2, log2⟩
  rw [hhh] at he hst2 hmem
  dsimp only at he hst2 hmem
  have hlog2 : ∀ x : ApiCall, x ∈ log2 → x ∈ log1 ∨ RoundCallShape base tools x := by
    intro x hx
    rcases hmem x hx with h | h
    · exact Or.inl h
    · exact Or.inr (Or.inl h)
  cases fout with
  | error err =>
    exact hlog2 e he
  | ok follow_up =>
    dsimp only at he
    by_cases hheu : response_suggests_continuation follow_up = true
    · rw [if_pos hheu] at he
      by_cases hcc2 : st2.can_continue = true
      · rw [if_pos hcc2] at he
        have hsp : ({ st2 with messages := st2.messages
            ++ [{ role := "assistant", content := MsgContent.str follow_up }] } :
            ConversationState).system_prompt = base := by
          simpa using hst2.trans hbase
        rcases hrec _ log2 e hsp he with h | h
        · exact hlog2 e h
        · exact Or.inr h
      · rw [if_neg hcc2] at he
        rcases mem_synthesize_log client st2 log2 e he with h | h
        · exact hlog2 e h
        · exact Or.inr (Or.inl h)
    · rw [if_neg hheu] at he
      exact hlog2 e he

theorem roundBody_entries (client : Client) (tools : Bool) (tm : Option ToolManagerFn)
    (recur : ConversationState → List ApiCall → Except String String × List ApiCall)
    (st1 : ConversationState) (log : List ApiCall) (base : String)
    (hbase : st1.system_prompt = base)
    (hrec : ∀ st2 log2 x, st2.system_prompt = base →
        x ∈ (recur st2 log2).2 → x ∈ log2 ∨ RoundCallShape base tools x) :
    ∀ e, e ∈ (roundBody client tools tm recur st1 log).2 →
      e ∈ log ∨ RoundCallShape base tools e := by
  intro e he
  have hlog1 := mem_round_log_shape st1 tools log base hbase
  unfold roundBody at he
  cases hcl : client log.length with
  | error err =>
    rw [hcl] at he
    dsimp only at he
    by_cases hctx : st1.accumulated_context ≠ []
    · rw [if_pos hctx] at he
      rcases mem_synthesize_log client st1 (log ++ [roundEntry st1 tools]) e he with h | h
      · exact hlog1 e h
      · exact Or.inr (Or.inl h)
    · rw [if_neg hctx] at he
      exact hlog1 e he
  | ok response =>
    rw [hcl] at he
    dsimp only at he
    cases tm with
    | none =>
      dsimp only at he
      unfold directReturn at he
      cases hct : content0text response with
      | some t => rw [hct] at he; exact hlog1 e he
      | none => rw [hct] at he; exact hlog1 e he
    | some tmgr =>
      dsimp only at he
      by_cases hsr : response.stop_reason = "tool_use"
      · rw [if_pos hsr] at he
        rcases toolRoundBranch_entries client tmgr recur response st1
            (log ++ [roundEntry st1 tools]) base tools hbase hrec e he with h | h
        · exact hlog1 e h
        · exact Or.inr h
      · rw [if_neg hsr] at he
        unfold directReturn at he
        cases hct : content0text response with
        | some t => rw [hct] at he; exact hlog1 e he
        | none => rw [hct] at he; exact hlog1 e he

theorem roundsLoop_entries (client : Client) (tools : Bool) (tm : Option ToolManagerFn) :
    ∀ (fuel : Nat) (st : ConversationState) (log : List ApiCall) (e : ApiCall),
      e ∈ (roundsLoop client tools tm fuel st log).2 →
      e ∈ log ∨ RoundCallShape st.system_prompt tools e := by
  intro fuel
  induction fuel with
  | zero =>
    intro st log e he
    rw [roundsLoop] at he
    rcases mem_synthesize_log client st log e he with h | h
    · exact Or.inl h
    · exact Or.inr (Or.inl h)
  | succ fuel ih =>
    intro st log e he
    rw [roundsLoop] at he
    by_cases hcc : st.can_continue = true
    · rw [if_pos hcc] at he
      refine roundBody_entries client tools tm _ (bumpRound st) log st.system_prompt
        rfl ?_ e he
      intro st2 log2 x hsp hx
      rcases ih st2 log2 x hx with h | h
      · exact Or.inl h
      · rw [hsp] at h; exact Or.inr h
    · rw [if_neg hcc] at he
      rcases mem_synthesize_log client st log e he with h | h
      · exact Or.inl h
      · exact Or.inr (Or.inl h)

theorem can_continue_true (st : ConversationState) (h : st.round_count < st.max_rounds) :
    st.can_continue = true := by
  simp [ConversationState.can_continue, h]

theorem can_continue_false (st : ConversationState) (h : ¬ st.round_count < st.max_rounds) :
    ¬ st.can_continue = true := by
  simp [ConversationState.can_continue, h]

theorem execute_step (client : Client) (tools : Bool) (tm : Option ToolManagerFn)
    (st : ConversationState) (log : List ApiCall)
    (h : st.round_count < st.max_rounds) :
    execute_conversation_rounds client tools tm st log =
      roundBody client tools tm
        (fun st2 log2 =>
          roundsLoop client tools tm (st.max_rounds - st.round_count - 1) st2 log2)
        (bumpRound st) log := by
  unfold execute_conversation_rounds
  obtain ⟨k, hk⟩ : ∃ k, st.max_rounds - st.round_count = k + 1 :=
    ⟨st.max_rounds - st.round_count - 1, by omega⟩
  rw [hk, roundsLoop, if_pos (can_continue_true st h)]
  simp

theorem processToolBlocks_batch (tm : ToolManagerFn) :
    ∀ (bs : List ContentBlock) (st : ConversationState) (acc : List ToolResultBlock),
      (processToolBlocks tm bs st acc).2 =
        acc ++ (bs.filter (fun b => b.type == "tool_use")).map
          (fun b => { tool_use_id := b.id, content := toolOutcomeText tm b }) := by
  intro bs
  induction bs with
  | nil => intro st acc; simp [processToolBlocks]
  | cons b rest ih =>
    intro st acc
    by_cases hb : b.type = "tool_use"
    · rw [processToolBlocks, if_pos hb]
      cases htm : tm b.name b.input with
      | ok r =>
        rw [ih]
        simp [List.filter_cons, hb, toolOutcomeText, htm]
      | error e =>
        rw [ih]
        simp [List.filter_cons, hb, toolOutcomeText, htm]
    · rw [processToolBlocks, if_neg hb]
      rw [ih]
      simp [List.filter_cons, hb]

theorem processToolBlocks_ctx (tm : ToolManagerFn) :
    ∀ (bs : List ContentBlock) (st : ConversationState) (acc : List ToolResultBlock),
      (processToolBlocks tm bs st acc).1.accumulated_context =
        ctxAfterBlocks tm bs st.accumulated_context := by
  intro bs
  induction bs with
  | nil => intro st acc; simp [processToolBlocks, ctxAfterBlocks]
  | cons b rest ih =>
    intro st acc
    by_cases hb : b.type = "tool_use"
    · rw [processToolBlocks, if_pos hb]
      cases htm : tm b.name b.input with
      | ok r =>
        rw [ih]
        simp only [ctxAfterBlocks, List.foldl_cons, if_pos hb, htm]
        rw [add_tool_context_ctx]
      | error e =>
        rw [ih]
        simp only [ctxAfterBlocks, List.foldl_cons, if_pos hb, htm]
    · rw [processToolBlocks, if_neg hb]
      rw [ih]
      simp only [ctxAfterBlocks, List.foldl_cons, if_neg hb]

theorem listLead_self_append (l t : List Char) : listLead l (l ++ t) = true := by
  induction l with
  | nil => rfl
  | cons a as ih => simp [listLead, ih]

theorem occursIn_append_self (p : List Char) :
    ∀ s : List Char, occursIn p (s ++ p) = true := by
  intro s
  induction s with
  | nil =>
    cases p with
    | nil => rfl
    | cons c r =>
      show occursIn (c :: r) (c :: r) = true
      rw [occursIn]
      have : listLead (c :: r) (c :: r) = true := by
        have := listLead_self_append (c :: r) []
        simpa using this
      simp [this]
  | cons c s' ih =>
    show occursIn p (c :: (s' ++ p)) = true
    rw [occursIn]
    simp [ih]

theorem containsSub_append_right (a p : String) : containsSub (a ++ p) p = true := by
  unfold containsSub
  have : (a ++ p).toList = a.toList ++ p.toList := by
    simp [String.toList, String.data_append]
  rw [this]
  exact occursIn_append_self p.toList a.toList

theorem nodup_append_singleton {α : Type} {l : List α} {c : α}
    (h : l.Nodup) (hc : c ∉ l) : (l ++ [c]).Nodup := by
  rw [List.nodup_append]
  refine ⟨h, List.nodup_singleton c, ?_⟩
  intro a ha hb
  rw [List.mem_singleton] at hb
  exact hc (hb ▸ ha)

/-- C8: `add_tool_context` never creates duplicate entries in
`accumulated_context` and preserves first-insertion order: adding a string
already present leaves the state unchanged, every add either leaves the ledger
as is or appends the new string at the end, and any sequence of adds keeps the
ledger duplicate-free. -/
theorem C8_theorem :
    (∀ (st : ConversationState) (c : String), c ∈ st.accumulated_context →
        st.add_tool_context c = st) ∧
    (∀ (st : ConversationState) (c : String),
        (st.add_tool_context c).accumulated_context = st.accumulated_context ∨
        ((st.add_tool_context c).accumulated_context = st.accumulated_context ++ [c] ∧
          c ∉ st.accumulated_context)) ∧
    (∀ (cs : List String) (st : ConversationState), st.accumulated_context.Nodup →
        ((cs.foldl ConversationState.add_tool_context st).accumulated_context).Nodup) := by
  refine ⟨?_, ?_, ?_⟩
  · intro st c h
    unfold ConversationState.add_tool_context
    rw [if_neg]
    simp [h]
  · intro st c
    rw [add_tool_context_ctx]
    by_cases hcond : c ≠ "" ∧ c ∉ st.accumulated_context
    · right
      rw [if_pos hcond]
      exact ⟨rfl, hcond.2⟩
    · left
      rw [if_neg hcond]
  · intro cs
    induction cs with
    | nil => intro st h; exact h
    | cons c rest ih =>
      intro st h
      rw [List.foldl_cons]
      apply ih
      rw [add_tool_context_ctx]
      by_cases hcond : c ≠ "" ∧ c ∉ st.accumulated_context
      · rw [if_pos hcond]
        exact nodup_append_singleton h hcond.2
      · rw [if_neg hcond]
        exact h

/-- C8 witness: on concrete states, re-adding the present string "a" is a
no-op, a fresh add appends at the end, and a fold with a duplicate keeps the
ledger duplicate-free. -/
theorem C8_witness :
    ({ stBase with accumulated_context := ["a"] } : ConversationState).add_tool_context "a" =
      { stBase with accumulated_context := ["a"] } ∧
    ((["x", "x", "y"].foldl ConversationState.add_tool_context stBase).accumulated_context).Nodup := by
  exact ⟨C8_theorem.1 { stBase with accumulated_context := ["a"] } "a" (by decide),
    C8_theorem.2.2 ["x", "x", "y"] stBase (by decide)⟩

/-- C1 counterexample: with a tool manager whose call raises ("boom"), the
round's batch receives the entry "Tool execution failed: boom", but
`accumulated_context` stays empty — the error result is NOT appended to the
conversation state's accumulated context as the claim requires (the claim
would demand "search_course_content: Tool execution failed: boom" there). -/
theorem C1_counterexample :
    (processToolBlocks tmRaise [toolUseBlock] stBase []).2 =
      [{ tool_use_id := "t1", content := "Tool execution failed: boom" }] ∧
    (processToolBlocks tmRaise [toolUseBlock] stBase []).1.accumulated_context = [] := by
  exact ⟨by decide, by decide⟩

/-- C1 (amended): during a round's tool execution every tool-use block
contributes exactly one batch entry — its result on success, the
"Tool execution failed: <message>" text when it raises — and only the
SUCCESSFUL results are appended (deduplicated) to `accumulated_context` as
"<tool name>: <result text>"; raising calls leave the accumulated context
unchanged. -/
theorem C1_amended_theorem :
    ∀ (tm : ToolManagerFn) (bs : List ContentBlock) (st : ConversationState)
      (acc : List ToolResultBlock),
      (processToolBlocks tm bs st acc).2 =
        acc ++ (bs.filter (fun b => b.type == "tool_use")).map
          (fun b => { tool_use_id := b.id, content := toolOutcomeText tm b }) ∧
      (processToolBlocks tm bs st acc).1.accumulated_context =
        ctxAfterBlocks tm bs st.accumulated_context :=
  fun tm bs st acc =>
    ⟨processToolBlocks_batch tm bs st acc, processToolBlocks_ctx tm bs st acc⟩

/-- C5: each tool call in a round's batch is wrapped individually: the batch
equals the per-block map in which a raising call's entry is exactly
"Tool execution failed: <message>" while every other block's entry depends
only on that block's own outcome; and the round still completes — whatever the
tools did, the handler returns the follow-up call's text. -/
theorem C5_theorem :
    (∀ (tm : ToolManagerFn) (bs : List ContentBlock) (st : ConversationState)
        (acc : List ToolResultBlock),
      (processToolBlocks tm bs st acc).2 =
        acc ++ (bs.filter (fun b => b.type == "tool_use")).map
          (fun b => { tool_use_id := b.id, content := toolOutcomeText tm b })) ∧
    (∀ (tm : ToolManagerFn) (b : ContentBlock) (e : String),
      tm b.name b.input = .error e →
      toolOutcomeText tm b = "Tool execution failed: " ++ e) ∧
    (∀ (client : Client) (tmgr : ToolManagerFn) (resp : Response)
        (st : ConversationState) (sys : String) (log : List ApiCall)
        (respF : Response) (t : String),
      client log.length = .ok respF → content0text respF = some t →
      (handle_tool_execution_for_round client tmgr resp st sys log).1 = .ok t) := by
  refine ⟨processToolBlocks_batch, ?_, ?_⟩
  · intro tm b e htm
    unfold toolOutcomeText
    rw [htm]
  · intro client tmgr resp st sys log respF t hcl hct
    unfold handle_tool_execution_for_round
    rw [hcl]
    dsimp only
    rw [hct]

/-- C5 witness: the raising tool's batch text on a concrete block, and a
concrete round with a raising tool still completing with the follow-up
text "done". -/
theorem C5_witness :
    toolOutcomeText tmRaise toolUseBlock = "Tool execution failed: " ++ "boom" ∧
    (handle_tool_execution_for_round clientDone tmRaise respToolUse stBase "BASE" []).1 =
      .ok "done" := by
  exact ⟨C5_theorem.2.1 tmRaise toolUseBlock "boom" rfl,
    C5_theorem.2.2 clientDone tmRaise respToolUse stBase "BASE" []
      (respText "done") "done" rfl rfl⟩

/-- C7: synthesis is a two-level fallback.  With empty accumulated context it
returns the fixed apology verbatim and makes no LLM call (the trace is
unchanged).  Otherwise it makes exactly one non-tool call whose user prompt is
the gathered context joined by blank lines plus the original query, and if
that call raises it returns exactly the blank-line-joined context prefixed by
"Based on my search, here's what I found:". -/
theorem C7_theorem :
    (∀ (client : Client) (st : ConversationState) (log : List ApiCall),
      st.accumulated_context = [] →
      synthesize_final_response client st log =
        ("I apologize, but I wasn't able to gather the information needed to answer your question.",
         log)) ∧
    (∀ (client : Client) (st : ConversationState) (log : List ApiCall),
      st.accumulated_context ≠ [] →
      (synthesize_final_response client st log).2 = log ++ [synthEntry st] ∧
      (synthEntry st).hasTools = false ∧
      (synthEntry st).userPrompt = some ("Based on the information I gathered:\n\n"
        ++ String.intercalate "\n\n" st.accumulated_context
        ++ "\n\nPlease provide a comprehensive answer to: " ++ st.original_query) ∧
      (∀ e, client log.length = .error e →
        (synthesize_final_response client st log).1 =
          "Based on my search, here's what I found:\n\n"
            ++ String.intercalate "\n\n" st.accumulated_context)) := by
  refine ⟨?_, ?_⟩
  · intro client st log h
    unfold synthesize_final_response
    rw [if_pos h]
  · intro client st log h
    refine ⟨?_, rfl, rfl, ?_⟩
    · unfold synthesize_final_response
      rw [if_neg h]
      dsimp only
      cases hcl : client log.length with
      | ok resp =>
        dsimp only
        cases hct : content0text resp with
        | some t => rfl
        | none => rfl
      | error e => rfl
    · intro e hcl
      unfold synthesize_final_response
      rw [if_neg h]
      dsimp only
      rw [hcl]

/-- C7 witness: the apology on an empty ledger, and on a concrete non-empty
ledger with a raising client, the single synthesis trace entry and the literal
fallback text. -/
theorem C7_witness :
    synthesize_final_response clientErr stBase [] =
      ("I apologize, but I wasn't able to gather the information needed to answer your question.",
       []) ∧
    (synthesize_final_response clientErr stCtx []).2 = [] ++ [synthEntry stCtx] ∧
    (synthesize_final_response clientErr stCtx []).1 =
      "Based on my search, here's what I found:\n\n"
        ++ String.intercalate "\n\n" stCtx.accumulated_context := by
  exact ⟨C7_theorem.1 clientErr stBase [] rfl,
    (C7_theorem.2 clientErr stCtx [] (by decide)).1,
    (C7_theorem.2 clientErr stCtx [] (by decide)).2.2.2 "net down" rfl⟩

/-- C6: if the first round's LLM response does not request tool use, exactly
one LLM call is made for the whole query and the loop returns that response's
text immediately. -/
theorem C6_theorem :
    ∀ (client : Client) (query : String) (hist : Option String) (tools : Bool)
      (tm : Option ToolManagerFn) (r : Response) (t : String),
      client 0 = .ok r → r.stop_reason ≠ "tool_use" → content0text r = some t →
      (generate_response client query hist tools tm).1 = .ok t ∧
      (generate_response client query hist tools tm).2.length = 1 := by
  intro client query hist tools tm r t hcl hsr hct
  unfold generate_response
  have hex := execute_step client tools tm
    { original_query := query,
      messages := [{ role := "user", content := MsgContent.str query }],
      round_count := 0, max_rounds := 2,
      system_prompt :=
        if pyTruthyStr hist = true then
          SYSTEM_PROMPT ++ "\n\nPrevious conversation:\n" ++ hist.getD ""
        else SYSTEM_PROMPT,
      accumulated_context := [] } [] (Nat.lt_of_sub_eq_succ rfl)
  rw [hex]
  unfold roundBody
  simp only [List.length_nil]
  rw [hcl]
  dsimp only
  cases tm with
  | none =>
    dsimp only
    unfold directReturn
    rw [hct]
    exact ⟨rfl, rfl⟩
  | some tmgr =>
    dsimp only
    rw [if_neg hsr]
    unfold directReturn
    rw [hct]
    exact ⟨rfl, rfl⟩

/-- C6 witness: a client answering "done" directly yields exactly the answer
and a one-call trace. -/
theorem C6_witness :
    (generate_response clientDone "q" none true (some tmOk)).1 = .ok "done" ∧
    (generate_response clientDone "q" none true (some tmOk)).2.length = 1 :=
  C6_theorem clientDone "q" none true (some tmOk) (respText "done") "done"
    rfl (by decide) rfl

/-- C10: when the response's stop reason is "tool_use" but no tool manager was
supplied, the loop executes no tools and returns the first content block's
text immediately, exactly like the direct-answer path — the trace gains only
the single round-opening call. -/
theorem C10_theorem :
    ∀ (client : Client) (tools : Bool) (st : ConversationState)
      (log : List ApiCall) (r : Response) (t : String),
      st.round_count < st.max_rounds →
      client log.length = .ok r → r.stop_reason = "tool_use" →
      content0text r = some t →
      execute_conversation_rounds client tools none st log =
        (.ok t, log ++ [roundEntry (bumpRound st) tools]) := by
  intro client tools st log r t h hcl hsr hct
  rw [execute_step _ _ _ _ _ h]
  unfold roundBody
  rw [hcl]
  dsimp only
  unfold directReturn
  rw [hct]

/-- C10 witness: a concrete tool-use response with no tool manager returns the
leading text block. -/
theorem C10_witness :
    execute_conversation_rounds (fun _ => .ok respToolUseText) true none stBase [] =
      (.ok "checking", [] ++ [roundEntry (bumpRound stBase) true]) :=
  C10_theorem (fun _ => .ok respToolUseText) true stBase [] respToolUseText
    "checking" (by decide) rfl rfl rfl

/-- C3: when a round's tool execution yields a follow-up matching the
continuation heuristic but the round budget is exhausted (the round just run
was round `max_rounds`), the loop returns the synthesis-path output over the
post-round state, never that round's raw follow-up text. -/
theorem C3_theorem :
    ∀ (client : Client) (tools : Bool) (tmgr : ToolManagerFn)
      (st : ConversationState) (log : List ApiCall) (response : Response)
      (fu : String),
      st.round_count + 1 = st.max_rounds →
      client log.length = .ok response →
      response.stop_reason = "tool_use" →
      (handle_tool_execution_for_round client tmgr response (bumpRound st)
          (roundPrompt (bumpRound st))
          (log ++ [roundEntry (bumpRound st) tools])).1 = .ok fu →
      response_suggests_continuation fu = true →
      (execute_conversation_rounds client tools (some tmgr) st log).1 =
        .ok (synthesize_final_response client
          (handle_tool_execution_for_round client tmgr response (bumpRound st)
            (roundPrompt (bumpRound st))
            (log ++ [roundEntry (bumpRound st) tools])).2.1
          (handle_tool_execution_for_round client tmgr response (bumpRound st)
            (roundPrompt (bumpRound st))
            (log ++ [roundEntry (bumpRound st) tools])).2.2).1 := by
  intro client tools tmgr st log response fu h hcl hsr hh hheu
  rw [execute_step _ _ _ _ _ (by omega)]
  unfold roundBody
  rw [hcl]
  dsimp only
  rw [if_pos hsr]
  unfold toolRoundBranch
  have hrc := handle_round_count client tmgr response (bumpRound st)
    (roundPrompt (bumpRound st)) (log ++ [roundEntry (bumpRound st) tools])
  have hmr := handle_max_rounds client tmgr response (bumpRound st)
    (roundPrompt (bumpRound st)) (log ++ [roundEntry (bumpRound st) tools])
  rcases hhh : handle_tool_execution_for_round client tmgr response (bumpRound st)
      (roundPrompt (bumpRound st)) (log ++ [roundEntry (bumpRound st) tools])
    with ⟨fout, st2, log2⟩
  rw [hhh] at hh hrc hmr
  have hfout : fout = Except.ok fu := hh
  subst hfout
  dsimp only
  rw [if_pos hheu]
  have h1 : st2.round_count = st.round_count + 1 := hrc
  have h2 : st2.max_rounds = st.max_rounds := hmr
  have hcc2 : ¬ st2.can_continue = true := by
    simp only [ConversationState.can_continue, decide_eq_true_eq]
    omega
  rw [if_neg hcc2]
  rfl

/-- C3 witness: in the concrete exhausted-budget run the loop returns the
synthesis output "synthesized", not the follow-up "i need to find more". -/
theorem C3_witness :
    (execute_conversation_rounds clientC3 true (some tmOk) stR1 []).1 =
      .ok (synthesize_final_response clientC3
        (handle_tool_execution_for_round clientC3 tmOk respToolUse (bumpRound stR1)
          (roundPrompt (bumpRound stR1)) ([] ++ [roundEntry (bumpRound stR1) true])).2.1
        (handle_tool_execution_for_round clientC3 tmOk respToolUse (bumpRound stR1)
          (roundPrompt (bumpRound stR1)) ([] ++ [roundEntry (bumpRound stR1) true])).2.2).1 ∧
    (synthesize_final_response clientC3
        (handle_tool_execution_for_round clientC3 tmOk respToolUse (bumpRound stR1)
          (roundPrompt (bumpRound stR1)) ([] ++ [roundEntry (bumpRound stR1) true])).2.1
        (handle_tool_execution_for_round clientC3 tmOk respToolUse (bumpRound stR1)
          (roundPrompt (bumpRound stR1)) ([] ++ [roundEntry (bumpRound stR1) true])).2.2).1 =
      "synthesized" ∧
    ("synthesized" : String) ≠ "i need to find more" := by
  refine ⟨C3_theorem clientC3 true tmOk stR1 [] respToolUse "i need to find more"
    rfl rfl rfl rfl (by decide), by decide, by decide⟩

/-- C4 counterexample: in a run where the round-1 follow-up call raises
("net down") with non-empty accumulated context, the handler's synthesis
output ("i need to find more") matches the continuation heuristic while budget
remains, so the loop continues into round 2 and the caller receives that
round's answer "FINAL" — not the synthesis-path output the claim promises. -/
theorem C4_counterexample :
    clientC4 1 = .error "net down" ∧
    (stateAfterTools tmOk respToolUse (bumpRound stBase)).accumulated_context ≠ [] ∧
    (execute_conversation_rounds clientC4 true (some tmOk) stBase []).1 = .ok "FINAL" ∧
    (synthesize_final_response clientC4
        (stateAfterTools tmOk respToolUse (bumpRound stBase))
        [roundEntry (bumpRound stBase) true,
         followEntry (roundPrompt (bumpRound stBase))]).1 = "i need to find more" ∧
    ("FINAL" : String) ≠ "i need to find more" := by
  refine ⟨rfl, by decide, by rfl, by decide, by decide⟩

/-- C4 (amended): when an LLM call of the loop raises, there is no retry; for
the round-opening call, non-empty accumulated context sends the loop to
synthesis whose result is returned, and empty context propagates the
exception (the trace gains only the one failed attempt).  For the round's
follow-up call, non-empty context makes the handler return the synthesis
output as that round's follow-up text (which the loop then subjects to the
continuation heuristic), and empty context propagates the exception. -/
theorem C4_amended_theorem :
    (∀ (client : Client) (tools : Bool) (tm : Option ToolManagerFn)
        (st : ConversationState) (log : List ApiCall) (e : String),
      st.round_count < st.max_rounds →
      client log.length = .error e →
      (st.accumulated_context ≠ [] →
        execute_conversation_rounds client tools tm st log =
          synthReturn client (bumpRound st) (log ++ [roundEntry (bumpRound st) tools])) ∧
      (st.accumulated_context = [] →
        execute_conversation_rounds client tools tm st log =
          (.error e, log ++ [roundEntry (bumpRound st) tools]))) ∧
    (∀ (client : Client) (tmgr : ToolManagerFn) (resp : Response)
        (st : ConversationState) (sys : String) (log : List ApiCall) (e : String),
      client log.length = .error e →
      ((stateAfterTools tmgr resp st).accumulated_context ≠ [] →
        handle_tool_execution_for_round client tmgr resp st sys log =
          (.ok (synthesize_final_response client (stateAfterTools tmgr resp st)
              (log ++ [followEntry sys])).1,
           stateAfterTools tmgr resp st,
           (synthesize_final_response client (stateAfterTools tmgr resp st)
              (log ++ [followEntry sys])).2)) ∧
      ((stateAfterTools tmgr resp st).accumulated_context = [] →
        handle_tool_execution_for_round client tmgr resp st sys log =
          (.error e, stateAfterTools tmgr resp st, log ++ [followEntry sys]))) := by
  constructor
  · intro client tools tm st log e h hcl
    rw [execute_step _ _ _ _ _ h]
    unfold roundBody
    rw [hcl]
    dsimp only
    constructor
    · intro hctx
      have hctx2 : (bumpRound st).accumulated_context ≠ [] := hctx
      rw [if_pos hctx2]
    · intro hctx
      have hctx2 : (bumpRound st).accumulated_context = [] := hctx
      rw [if_neg (by simp [hctx2])]
  · intro client tmgr resp st sys log e hcl
    unfold handle_tool_execution_for_round
    rw [hcl]
    dsimp only
    constructor
    · intro hctx
      rw [if_pos hctx]
    · intro hctx
      rw [if_neg (by simp [hctx])]

/-- C4 witness: all four amended branches at concrete inputs — a raising
round call with and without context, and a raising follow-up call with and
without context. -/
theorem C4_witness :
    execute_conversation_rounds clientErr true (some tmOk) stCtx [] =
      synthReturn clientErr (bumpRound stCtx) ([] ++ [roundEntry (bumpRound stCtx) true]) ∧
    execute_conversation_rounds clientErr true (some tmOk) stBase [] =
      (.error "net down", [] ++ [roundEntry (bumpRound stBase) true]) ∧
    handle_tool_execution_for_round clientErr tmOk respToolUse stBase "S" [] =
      (.ok (synthesize_final_response clientErr (stateAfterTools tmOk respToolUse stBase)
          ([] ++ [followEntry "S"])).1,
       stateAfterTools tmOk respToolUse stBase,
       (synthesize_final_response clientErr (stateAfterTools tmOk respToolUse stBase)
          ([] ++ [followEntry "S"])).2) ∧
    handle_tool_execution_for_round clientErr tmRaise respToolUse stBase "S" [] =
      (.error "net down", stateAfterTools tmRaise respToolUse stBase,
       [] ++ [followEntry "S"]) := by
  refine ⟨(C4_amended_theorem.1 clientErr true (some tmOk) stCtx [] "net down"
      (by decide) rfl).1 (by decide),
    (C4_amended_theorem.1 clientErr true (some tmOk) stBase [] "net down"
      (by decide) rfl).2 rfl,
    (C4_amended_theorem.2 clientErr tmOk respToolUse stBase "S" [] "net down" rfl).1
      (by decide),
    (C4_amended_theorem.2 clientErr tmRaise respToolUse stBase "S" [] "net down" rfl).2
      (by decide)⟩

/-- C2 counterexample: a run in which round 1's only tool call raises, so the
accumulated context is still empty when round 2 (the final round) starts.  The
trace's final-round entry (round bookkeeping `(2, 2, [])`) carries the bare
base prompt "BASE", which does not contain the final-round statement — the
claim's promised augmentation and final-round notice are absent. -/
theorem C2_counterexample :
    (execute_conversation_rounds clientC2 true (some tmRaise) stBase []).2 =
      [{ system := "BASE", hasTools := true, roundInfo := some (1, 2, []) },
       { system := "BASE", hasTools := false },
       { system := "BASE", hasTools := true, roundInfo := some (2, 2, []) }] ∧
    containsSub "BASE" "This is your final round of tool usage." = false := by
  exact ⟨by decide, by decide⟩

/-- C2 (amended): the loop makes at most `max_rounds - round_count`
tools-enabled LLM calls; every trace entry it appends is either a non-round
call or a round-opening call whose system prompt is `build_round_prompt` of
the base prompt and the recorded round bookkeeping; and `build_round_prompt`
augments the base prompt with the context summary and the round statement —
including the final-round statement when the round equals the budget —
exactly when the round is ≥ 2 AND the accumulated context is non-empty, while
an empty context leaves the base prompt unchanged (even in the final round). -/
theorem C2_amended_theorem :
    (∀ (client : Client) (tools : Bool) (tm : Option ToolManagerFn)
        (st : ConversationState) (log : List ApiCall),
      countToolCalls (execute_conversation_rounds client tools tm st log).2 ≤
        countToolCalls log + (st.max_rounds - st.round_count)) ∧
    (∀ (client : Client) (tools : Bool) (tm : Option ToolManagerFn)
        (st : ConversationState) (log : List ApiCall) (e : ApiCall),
      e ∈ (execute_conversation_rounds client tools tm st log).2 →
      e ∈ log ∨ RoundCallShape st.system_prompt tools e) ∧
    (∀ (base : String) (k m : Nat) (ctx : List String), 2 ≤ k → ctx ≠ [] →
      build_round_prompt base k m ctx =
        base ++ "\n\nPrevious tool results from this query:\n"
          ++ String.intercalate "\n" ctx
          ++ "\n\nThis is round " ++ toString k ++ " of " ++ toString m ++ ". "
          ++ (if k = m then "This is your final round of tool usage."
              else "You may use tools again if needed for follow-up searches.") ∧
      (k = m → containsSub (build_round_prompt base k m ctx)
          "This is your final round of tool usage." = true)) ∧
    (∀ (base : String) (k m : Nat) (ctx : List String), ctx = [] →
      build_round_prompt base k m ctx = base) := by
  refine ⟨?_, ?_, ?_, ?_⟩
  · intro client tools tm st log
    exact roundsLoop_count_bound client tools tm (st.max_rounds - st.round_count) st log
  · intro client tools tm st log e he
    exact roundsLoop_entries client tools tm (st.max_rounds - st.round_count) st log e he
  · intro base k m ctx hk hctx
    have hcond : k > 1 ∧ ctx ≠ [] := ⟨by omega, hctx⟩
    constructor
    · unfold build_round_prompt
      rw [if_pos hcond]
    · intro hkm
      unfold build_round_prompt
      rw [if_pos hcond, if_pos hkm]
      exact containsSub_append_right _ _
  · intro base k m ctx hctx
    unfold build_round_prompt
    rw [if_neg (by simp [hctx])]

/-- C2 witness: the call-count bound on a concrete two-round run, the
final-round statement in a concrete augmented round-2-of-2 prompt, and the
bare base prompt when no context was accumulated. -/
theorem C2_witness :
    countToolCalls (execute_conversation_rounds clientC2 true (some tmRaise) stBase []).2 ≤
      countToolCalls [] + (stBase.max_rounds - stBase.round_count) ∧
    containsSub (build_round_prompt "B" 2 2 ["c"])
      "This is your final round of tool usage." = true ∧
    build_round_prompt "B" 1 2 [] = "B" := by
  exact ⟨C2_amended_theorem.1 clientC2 true (some tmRaise) stBase [],
    (C2_amended_theorem.2.2.1 "B" 2 2 ["c"] (by decide) (by decide)).2 rfl,
    C2_amended_theorem.2.2.2 "B" 1 2 [] rfl⟩

theorem strAppend_assoc (a b c : String) : a ++ b ++ c = a ++ (b ++ c) := by
  apply String.ext
  simp [String.data_append]

/-- C9 counterexample: with both filters supplied but `lesson_number = 0`
(a falsy Python int), the empty-result message omits the lesson clause — the
code yields "No relevant content found in course 'MCP'." where the claim
demands "No relevant content found in course 'MCP' in lesson 0.". -/
theorem C9_counterexample :
    CourseSearchTool_execute searchEmpty noLinks "q" (some "MCP") (some 0) =
      "No relevant content found in course 'MCP'." ∧
    ("No relevant content found in course 'MCP'." : String) ≠
      "No relevant content found in course 'MCP' in lesson 0." := by
  exact ⟨by decide, by decide⟩

/-- C9 (amended): on a no-error empty result set, the four no-match message
variants are produced exactly, keyed by Python truthiness of the supplied
filters (non-empty `course_name`, non-zero `lesson_number`) rather than by
mere presence. -/
theorem C9_amended_theorem :
    ∀ (search : SearchFn) (getLessonLink : LessonLinkFn) (query : String)
      (course_name : Option String) (lesson_number : Option Int),
      pyTruthyStr (search query course_name lesson_number).error = false →
      (search query course_name lesson_number).is_empty = true →
      (∀ c n, course_name = some c → c ≠ "" → lesson_number = some n → n ≠ 0 →
        CourseSearchTool_execute search getLessonLink query course_name lesson_number =
          "No relevant content found in course '" ++ c ++ "' in lesson "
            ++ toString n ++ ".") ∧
      (∀ c, course_name = some c → c ≠ "" → pyTruthyInt lesson_number = false →
        CourseSearchTool_execute search getLessonLink query course_name lesson_number =
          "No relevant content found in course '" ++ c ++ "'.") ∧
      (∀ n, pyTruthyStr course_name = false → lesson_number = some n → n ≠ 0 →
        CourseSearchTool_execute search getLessonLink query course_name lesson_number =
          "No relevant content found in lesson " ++ toString n ++ ".") ∧
      (pyTruthyStr course_name = false → pyTruthyInt lesson_number = false →
        CourseSearchTool_execute search getLessonLink query course_name lesson_number =
          "No relevant content found.") := by
  intro search getLessonLink query course_name lesson_number herr hemp
  refine ⟨?_, ?_, ?_, ?_⟩
  · intro c n hc hcne hn hn0
    unfold CourseSearchTool_execute
    rw [if_neg (by simp [herr]), if_pos hemp]
    subst hc
    subst hn
    rw [if_pos (by simp [pyTruthyStr, hcne]), if_pos (by simp [pyTruthyInt, hn0])]
    apply String.ext
    simp [String.data_append, List.append_assoc]
  · intro c hc hcne hln
    unfold CourseSearchTool_execute
    rw [if_neg (by simp [herr]), if_pos hemp]
    subst hc
    rw [if_pos (by simp [pyTruthyStr, hcne]), if_neg (by simp [hln])]
    apply String.ext
    simp [String.data_append, List.append_assoc]
  · intro n hcn hn hn0
    unfold CourseSearchTool_execute
    rw [if_neg (by simp [herr]), if_pos hemp]
    subst hn
    rw [if_neg (by simp [hcn]), if_pos (by simp [pyTruthyInt, hn0])]
    apply String.ext
    simp [String.data_append, List.append_assoc]
  · intro hcn hln
    unfold CourseSearchTool_execute
    rw [if_neg (by simp [herr]), if_pos hemp]
    rw [if_neg (by simp [hcn]), if_neg (by simp [hln])]
    apply String.ext
    simp [String.data_append]

/-- C9 witness: the four exact message variants on a concrete empty result
set: both truthy filters, course only, lesson only, and neither. -/
theorem C9_witness :
    CourseSearchTool_execute searchEmpty noLinks "q" (some "MCP") (some 3) =
      "No relevant content found in course '" ++ "MCP" ++ "' in lesson "
        ++ toString (3 : Int) ++ "." ∧
    CourseSearchTool_execute searchEmpty noLinks "q" (some "MCP") none =
      "No relevant content found in course '" ++ "MCP" ++ "'." ∧
    CourseSearchTool_execute searchEmpty noLinks "q" none (some 3) =
      "No relevant content found in lesson " ++ toString (3 : Int) ++ "." ∧
    CourseSearchTool_execute searchEmpty noLinks "q" none none =
      "No relevant content found." := by
  exact ⟨(C9_amended_theorem searchEmpty noLinks "q" (some "MCP") (some 3)
      rfl rfl).1 "MCP" 3 rfl (by decide) rfl (by decide),
    (C9_amended_theorem searchEmpty noLinks "q" (some "MCP") none
      rfl rfl).2.1 "MCP" rfl (by decide) rfl,
    (C9_amended_theorem searchEmpty noLinks "q" none (some 3)
      rfl rfl).2.2.1 3 rfl rfl (by decide),
    (C9_amended_theorem searchEmpty noLinks "q" none none
      rfl rfl).2.2.2 rfl rfl⟩
